import Mathlib

/-!
Verification of the Policy Annotation Engine of `app.py` (school-record
prohibited-word checker) against its natural-language specification.

The source program is embedded shallowly:

* Python strings are modelled as `List Char` (a Python `str` is a sequence of
  Unicode codepoints, and all offsets in the program are codepoint offsets).
* Python floats (rule confidences) are modelled as exact rationals `ℚ`; the
  program only compares, maximises and sorts them.
* `re.finditer` over the rule patterns is the boundary to the external regex
  engine: the matcher passes are parameterised by the list of matches, while
  everything the repository itself computes (conflict resolution, greedy
  merging, unknown-abbreviation scanning, normalization, particle inflection)
  is embedded directly.  The unknown-abbreviation regex
  `(?<![A-Za-z])([A-Z]{2,10})(?![A-Za-z])` is simple enough that it is
  embedded exactly (maximal uppercase runs of length 2..10 with no adjacent
  Latin letter).
-/

/-! ## Byte/Unicode analyzer (`utf8_byte_len`, `normalize_for_neis`) -/

/-- Number of bytes of one codepoint under UTF-8, as produced by Python's
`str.encode("utf-8")` for each character. -/
def utf8_char_len (c : Char) : Nat :=
  if c.toNat < 0x80 then 1
  else if c.toNat < 0x800 then 2
  else if c.toNat < 0x10000 then 3
  else 4

/-- Embeds `utf8_byte_len` (app.py line 114): `len(text.encode("utf-8"))`. -/
def utf8_byte_len (text : List Char) : Nat :=
  (text.map utf8_char_len).sum

/-- Python slice `text[s:e]` on a string, at codepoint offsets. -/
def pySlice (text : List Char) (s e : Nat) : List Char :=
  (text.drop s).take (e - s)

/-- Characters for which Python's `str.isspace()` returns True. -/
def pyIsSpace (c : Char) : Bool :=
  c.toNat ∈ [0x09, 0x0A, 0x0B, 0x0C, 0x0D, 0x1C, 0x1D, 0x1E, 0x1F, 0x20,
    0x85, 0xA0, 0x1680, 0x2000, 0x2001, 0x2002, 0x2003, 0x2004, 0x2005,
    0x2006, 0x2007, 0x2008, 0x2009, 0x200A, 0x2028, 0x2029, 0x202F, 0x205F, 0x3000]

/-- ASCII lowering, as `str.lower()` and `re.IGNORECASE` act on the ASCII
letters appearing in the rule table (Hangul has no case). -/
def ascii_lower (c : Char) : Char :=
  if 'A' ≤ c ∧ c ≤ 'Z' then Char.ofNat (c.toNat + 32) else c

/-- `s.lower()` on such strings. -/
def py_lower (s : String) : String := String.mk (s.data.map ascii_lower)

/-- ASCII raising, as `str.upper()` acts on the `newline_mode` argument. -/
def ascii_upper (c : Char) : Char :=
  if 'a' ≤ c ∧ c ≤ 'z' then Char.ofNat (c.toNat - 32) else c

/-- `s.upper()` on such strings. -/
def py_upper (s : String) : String := String.mk (s.data.map ascii_upper)

/-- First step of `normalize_for_neis`: `text.replace("\r\n", "\n")`,
a left-to-right non-overlapping two-character replacement. -/
def replace_crlf : List Char → List Char
  | [] => []
  | [c] => [c]
  | c :: d :: t =>
      if c = '\r' ∧ d = '\n' then '\n' :: replace_crlf t
      else c :: replace_crlf (d :: t)

/-- Embeds `normalize_for_neis` (app.py lines 152-180).  Python's
single-character `str.replace` is a pointwise map and removal of a character
is a filter; the sequential `.replace` chain of the source is kept. -/
def normalize_for_neis (text : List Char) (newline_mode : String := "LF")
    (replace_nbsp : Bool := true) (remove_zero_width : Bool := true) : List Char :=
  -- 1) unify newlines
  let t1 := (replace_crlf text).map (fun c => if c = '\r' then '\n' else c)
  let t2 := if py_upper newline_mode = "CRLF"
    then t1.flatMap (fun c => if c = '\n' then ['\r', '\n'] else [c])
    else t1
  -- 2) replace special spaces: NBSP, NNBSP, IDEOGRAPHIC SPACE
  let t3 := if replace_nbsp then
      ((t2.map (fun c => if c = '\u00A0' then ' ' else c)).map
        (fun c => if c = '\u202F' then ' ' else c)).map
        (fun c => if c = '\u3000' then ' ' else c)
    else t2
  -- 3) remove zero-width / invisible characters: ZWSP, ZWNJ, ZWJ, BOM
  let t4 := if remove_zero_width then
      (((t3.filter (· ≠ '\u200B')).filter (· ≠ '\u200C')).filter
        (· ≠ '\u200D')).filter (· ≠ '\uFEFF')
    else t3
  t4

/-! ## Data model: `Source`, `Hit`, `Rule` -/

/-- Embeds the pydantic `Source` schema (app.py lines 29-32). -/
structure Source where
  doc : String
  page : Option Int
  quote : Option String
deriving DecidableEq, Repr

/-- Embeds the pydantic `Hit` schema (app.py lines 35-43).  The Python field
`end` is a Lean keyword, so it is named `end_` here; `start`/`end_` are
half-open codepoint offsets into the original text. -/
structure Hit where
  span : List Char
  label : String
  replacement : Option String
  confidence : ℚ
  source : Source
  start : Nat
  end_ : Nat
  delete_with_particle : Bool := false
deriving DecidableEq, Repr

/-- Embeds a row of the `RULES` policy table (app.py lines 196-301).
`replacement = none` models Python `None` ("flag only"); `some ""` models the
empty-string sentinel ("delete"). -/
structure Rule where
  pattern : String
  label : String
  replacement : Option String
  confidence : ℚ
  source : Source
  aliases : List String
  delete_with_particle : Bool := false
deriving DecidableEq, Repr

/-- Default `Hit` used for total list indexing (`List.getD`); every access in
the embedded loops is guarded by the same bounds checks as the source. -/
def defaultHit : Hit :=
  { span := [], label := "", replacement := none, confidence := 0,
    source := { doc := "", page := none, quote := none },
    start := 0, end_ := 0, delete_with_particle := false }

/-! ## Korean particle inflection (`chooseParticle`, app.py lines 708-741)

These functions live in the embedded front-end script of `app.py`; they are
plain JavaScript over BMP strings and are embedded directly.  JavaScript's
`String.prototype.trim` strips whitespace from both ends. -/

/-- Whitespace stripped by JavaScript `trim` (WhiteSpace ∪ LineTerminator). -/
def jsIsSpace (c : Char) : Bool :=
  c.toNat ∈ [0x09, 0x0A, 0x0B, 0x0C, 0x0D, 0x20, 0xA0, 0x1680, 0x2000, 0x2001,
    0x2002, 0x2003, 0x2004, 0x2005, 0x2006, 0x2007, 0x2008, 0x2009, 0x200A,
    0x2028, 0x2029, 0x202F, 0x205F, 0x3000, 0xFEFF]

/-- JavaScript `word.trim()` on the codepoint sequence. -/
def jsTrim (w : List Char) : List Char :=
  ((w.dropWhile jsIsSpace).reverse.dropWhile jsIsSpace).reverse

/-- Embeds `_lastHangulHasBatchim` (app.py lines 708-715): the trimmed word's
last character, when it is a Hangul syllable (U+AC00..U+D7A3), has a nonzero
jongseong index `(code - 0xAC00) % 28`. -/
def _lastHangulHasBatchim (word : String) : Bool :=
  match (jsTrim word.data).getLast? with
  | none => false
  | some c =>
      let ch := c.toNat
      if ch < 0xAC00 ∨ 0xD7A3 < ch then false
      else (ch - 0xAC00) % 28 ≠ 0

/-- Embeds `_lastHangulIsRieul` (app.py lines 716-723): jongseong index 8 (ㄹ). -/
def _lastHangulIsRieul (word : String) : Bool :=
  match (jsTrim word.data).getLast? with
  | none => false
  | some c =>
      let ch := c.toNat
      if ch < 0xAC00 ∨ 0xD7A3 < ch then false
      else (ch - 0xAC00) % 28 = 8

/-- Embeds `chooseParticle` (app.py lines 724-741): the JavaScript `switch`
with fall-through case pairs. -/
def chooseParticle (baseWord particle : String) : String :=
  let hasBatchim := _lastHangulHasBatchim baseWord
  if particle = "로" ∨ particle = "으로" then
    if !hasBatchim || _lastHangulIsRieul baseWord then "로" else "으로"
  else if particle = "와" ∨ particle = "과" then
    if hasBatchim then "과" else "와"
  else if particle = "는" ∨ particle = "은" then
    if hasBatchim then "은" else "는"
  else if particle = "가" ∨ particle = "이" then
    if hasBatchim then "이" else "가"
  else if particle = "를" ∨ particle = "을" then
    if hasBatchim then "을" else "를"
  else particle

/-! ## The policy rule table (`RULES`, app.py lines 196-301) -/


/-- The confidence literals of the program as reduced rationals in
constructor form (core `Rat` division is irreducible, so `95 / 100 : ℚ`
would not evaluate inside the kernel): `rq95` is 0.95, and so on; see
`rq_eq_div` below. -/
def rq85 : ℚ := ⟨17, 20, by decide, by decide⟩

/-- 0.92 as a reduced rational. -/
def rq92 : ℚ := ⟨23, 25, by decide, by decide⟩

/-- 0.93 as a reduced rational. -/
def rq93 : ℚ := ⟨93, 100, by decide, by decide⟩

/-- 0.94 as a reduced rational. -/
def rq94 : ℚ := ⟨47, 50, by decide, by decide⟩

/-- 0.95 as a reduced rational. -/
def rq95 : ℚ := ⟨19, 20, by decide, by decide⟩

/-- 0.98 as a reduced rational. -/
def rq98 : ℚ := ⟨49, 50, by decide, by decide⟩

/-- 0.99 as a reduced rational. -/
def rq99 : ℚ := ⟨99, 100, by decide, by decide⟩

/-- The constructor-form rationals above denote exactly the decimal
confidences written in the source. -/
lemma rq_eq_div :
    rq85 = 85 / 100 ∧ rq92 = 92 / 100 ∧ rq93 = 93 / 100 ∧ rq94 = 94 / 100 ∧
    rq95 = 95 / 100 ∧ rq98 = 98 / 100 ∧ rq99 = 99 / 100 := by
  refine ⟨?_, ?_, ?_, ?_, ?_, ?_, ?_⟩ <;>
    simp only [rq85, rq92, rq93, rq94, rq95, rq98, rq99] <;>
    rw [Rat.mk'_eq_divInt, Rat.divInt_eq_div] <;> norm_num

set_option maxHeartbeats 2000000 in
/-- Embeds the `RULES` table verbatim (78 rules).  Pattern strings are kept
as inert data; only the fields the embedded passes read (label, replacement,
confidence, source, aliases, delete_with_particle) are consumed. -/
def RULES : List Rule :=
[
  { pattern := "(?:NAVER|Naver|네이버|Daum|다음|\\bGoogle\\b(?!\\s?(Docs|Classroom|TV)))",
    label := "상호명", replacement := some "포털사이트",
    confidence := rq95,
    source := { doc := "대체표현", page := some 1, quote := some "Google(구글), NAVER(네이버), Daum(다음) 등 → 포털사이트" },
    aliases := ["googel", "gooogle", "구글검색", "네이버검색", "다음검색"],
    delete_with_particle := false },
  { pattern := "(?:Google\\s?Classroom|구글\\s?클래스룸|EBS\\s?온라인클래스|classting|클래스팅)",
    label := "상호명", replacement := some "학습 플랫폼",
    confidence := rq95,
    source := { doc := "대체표현", page := some 1, quote := some "Google Classroom(구글 클래스룸), EBS 온라인클래스 등 → 학습 플랫폼" },
    aliases := ["gclassroom", "구클", "클래스팅앱", "이비에스 온라인클래스"],
    delete_with_particle := false },
  { pattern := "(?:TikTok|틱톡)",
    label := "상호명", replacement := some "엔터테인먼트 플랫폼",
    confidence := rq92,
    source := { doc := "대체표현", page := some 1, quote := some "TikTok(틱톡) 등 → 엔터테인먼트 플랫폼" },
    aliases := ["틱톡영상", "tiktoc", "틱톡스"],
    delete_with_particle := false },
  { pattern := "(?:YouTube|유튜브|TVING|티빙|watcha|왓챠|netflix|넷플릭스|wavve|웨이브|disney\\s?plus|디즈니\\+?|디즈니플러스|OTT)",
    label := "상호명", replacement := some "동영상 플랫폼",
    confidence := rq95,
    source := { doc := "대체표현", page := some 1, quote := some "YouTube(유튜브), TVING(티빙) ... OTT 등 → 동영상 플랫폼" },
    aliases := ["yutube", "you tube", "유튭", "유툽", "넷플", "왓챠플레이"],
    delete_with_particle := false },
  { pattern := "(?:YouTuber|유튜버)",
    label := "직업명", replacement := some "동영상 크리에이터",
    confidence := rq92,
    source := { doc := "대체표현", page := some 1, quote := some "YouTuber(유튜버) 등 → 동영상 크리에이터, 동영상 제공자" },
    aliases := ["유튜브러", "youtuber"],
    delete_with_particle := false },
  { pattern := "(?:KakaoTalk|카카오톡|카톡|\\bLINE\\b|(?<![가-힣])라인(?![가-힣])|Instagram|인스타그램|Twitter|트위터|Meta|메타|Facebook|페이스북)",
    label := "상호명", replacement := some "소셜 네트워크 서비스",
    confidence := rq95,
    source := { doc := "대체표현", page := some 1, quote := some "KakaoTalk, Instagram, Facebook 등 → 메신저, 소셜네트워크서비스" },
    aliases := ["kakaotalk", "kkt", "카톡방", "인스타", "insta", "페북", "x(트위터)"],
    delete_with_particle := false },
  { pattern := "(?:Chat\\s?GPT|챗\\s?GPT|챗지피티|wrtn|뤼튼|bing\\s?Chat|빙챗|Bard|바드|하이퍼클로바X|HyperClova\\s?X)",
    label := "상호명", replacement := some "생성형 인공지능",
    confidence := rq95,
    source := { doc := "대체표현", page := some 1, quote := some "Chat GPT(챗지피티), wrtn(뤼튼) ... 등 → 대화형 인공지능, 생성형 인공지능" },
    aliases := ["chatgpt", "챗쥐피티", "gpt챗", "빙챗봇", "하클x", "뤼튼ai"],
    delete_with_particle := false },
  { pattern := "(?:Canva|캔바|miricanvas|미리캔버스|mangoboard|망고보드)",
    label := "상호명", replacement := some "디자인 제작 플랫폼",
    confidence := rq92,
    source := { doc := "대체표현", page := some 1, quote := some "miricanvas(미리캔버스), mangoboard(망고보드), Canva(캔바) 등" },
    aliases := ["캔바앱", "미캔"],
    delete_with_particle := false },
  { pattern := "(?:KineMaster|키네마스터|Premiere\\s?Pro|프리미어\\s?프로)",
    label := "프로그램명", replacement := some "영상 편집 프로그램",
    confidence := rq92,
    source := { doc := "대체표현", page := some 1, quote := some "영상 제작 프로그램, 영상 편집 프로그램" },
    aliases := ["키네", "프리미어"],
    delete_with_particle := false },
  { pattern := "(?:Python|파이썬|Java\\b|자바|C\\+\\+|C언어|자바\\s?스크립트|Java\\s*Script|JavaScript|Javascript|JS\\b)",
    label := "프로그램명", replacement := some "프로그래밍 언어",
    confidence := rq92,
    source := { doc := "대체표현", page := some 2, quote := some "프로그램명 (파이썬, C언어 등) 기재 불가" },
    aliases := ["파이선", "자바스크립", "씨언어", "javascript", "java script", "js"],
    delete_with_particle := false },
  { pattern := "(?:Jupyter|주피터|Colab|코랩|PyCharm|파이참|VS\\s?Code|Visual\\s?Studio\\s?Code|비주얼\\s?스튜디오\\s?코드|Anaconda|Spyder)",
    label := "프로그램명", replacement := some "개발 도구",
    confidence := rq92,
    source := { doc := "대체표현", page := some 2, quote := some "특정 소프트웨어/개발환경 기재 지양, 일반화 표현 사용" },
    aliases := ["주피터", "코랩", "파이참", "vscode", "vs코드"],
    delete_with_particle := false },
  { pattern := "(?:MS\\s?워드|MS\\s?Word|Microsoft\\s?Word|워드)",
    label := "프로그램명", replacement := some "문서작성 프로그램",
    confidence := rq92,
    source := { doc := "대체표현", page := some 1, quote := some "hwp, MS워드 → 문서작성 프로그램" },
    aliases := ["msword", "워드파일"],
    delete_with_particle := false },
  { pattern := "(?:Google\\s?Docs|구글\\s?문서|구글\\s?독스)",
    label := "프로그램명", replacement := some "온라인 문서 편집기",
    confidence := rq92,
    source := { doc := "대체표현", page := some 1, quote := some "Google Docs(구글문서) 등 → 온라인 문서 편집기" },
    aliases := ["gdocs"],
    delete_with_particle := false },
  { pattern := "(?:TED|테드)",
    label := "강연명", replacement := some "온라인 강연회",
    confidence := rq92,
    source := { doc := "대체표현", page := some 1, quote := some "TED(테드) 등 → 온라인 강연회" },
    aliases := ["ted 강연", "테드톡"],
    delete_with_particle := false },
  { pattern := "(?:KTX|케이티엑스|SRT|에스알티)",
    label := "상호명", replacement := some "고속 열차",
    confidence := rq95,
    source := { doc := "대체표현", page := some 1, quote := some "KTX, SRT → 고속 열차" },
    aliases := ["케텍", "에스알티"],
    delete_with_particle := false },
  { pattern := "(?:\\bZoom\\b|(?<![가-힣])줌(?![가-힣])|웨일온|Whale\\s?ON)",
    label := "상호명", replacement := some "화상 회의",
    confidence := rq92,
    source := { doc := "대체표현", page := some 1, quote := some "Zoom(줌) 등 → 화상 회의" },
    aliases := ["줌미팅", "웨일온회의"],
    delete_with_particle := false },
  { pattern := "(?:UN|EU|ASEAN|APEC|G7|G20|WHO|WTO|OECD|IMF|IAEA|NATO|UNESCO|UNICEF|UNEP|UNDP|UNHCR|유엔|유럽연합)",
    label := "기관명", replacement := some "국제기구",
    confidence := rq98,
    source := { doc := "단체명 기재", page := some 1, quote := some "교육관련기관 제외 특정 기관명 기재 불가" },
    aliases := ["유엔기구", "오이시디", "나토", "유네스코한국위원회"],
    delete_with_particle := false },
  { pattern := "소논문|연구보고서",
    label := "논문 실적", replacement := some "탐구 활동",
    confidence := rq99,
    source := { doc := "논문 기재", page := some 1, quote := some "자율탐구활동 산출물 실적 기재 불가" },
    aliases := ["소논문 작성", "연구보고서를 제출"],
    delete_with_particle := false },
  { pattern := "[一-龥]",
    label := "외국어", replacement := none,
    confidence := rq99,
    source := { doc := "외국어 기재", page := some 1, quote := some "한글 사용 원칙. 영문 제외 외국어 입력 불가." },
    aliases := [],
    delete_with_particle := false },
  { pattern := "·",
    label := "특수문자", replacement := some ", ",
    confidence := rq99,
    source := { doc := "특수문자", page := some 1, quote := some "서술형 특수문자 입력 지양" },
    aliases := [],
    delete_with_particle := false },
  { pattern := "[※▷▶]",
    label := "특수문자", replacement := some " ",
    confidence := rq99,
    source := { doc := "특수문자", page := some 1, quote := some "서술형 특수문자 입력 지양" },
    aliases := [],
    delete_with_particle := false },
  { pattern := "\\bKIOST\\b",
    label := "기관명", replacement := some "해양과학기술원",
    confidence := rq95,
    source := { doc := "영문 약어", page := some 1, quote := some "영문 약어는 한글 풀이로 대체" },
    aliases := [],
    delete_with_particle := false },
  { pattern := "\\bKIGAM\\b",
    label := "기관명", replacement := some "지질자원연구원",
    confidence := rq95,
    source := { doc := "영문 약어", page := some 1, quote := some "영문 약어는 한글 풀이로 대체" },
    aliases := [],
    delete_with_particle := false },
  { pattern := "\\bNOAA\\b",
    label := "기관명", replacement := some "미국해양대기청",
    confidence := rq95,
    source := { doc := "영문 약어", page := some 1, quote := some "영문 약어는 한글 풀이로 대체" },
    aliases := [],
    delete_with_particle := false },
  { pattern := "\\bIAU\\b",
    label := "기관명", replacement := some "국제천문연맹",
    confidence := rq95,
    source := { doc := "영문 약어", page := some 1, quote := some "영문 약어는 한글 풀이로 대체" },
    aliases := [],
    delete_with_particle := false },
  { pattern := "\\bGIC\\b",
    label := "전문 약어", replacement := some "지자기유도전류",
    confidence := rq95,
    source := { doc := "전문 약어", page := some 1, quote := some "전문 약어는 한글 풀이로 대체" },
    aliases := [],
    delete_with_particle := false },
  { pattern := "\\bEEZ\\b",
    label := "전문 약어", replacement := some "배타적 경제수역",
    confidence := rq95,
    source := { doc := "전문 약어", page := some 1, quote := some "전문 약어는 한글 풀이로 대체" },
    aliases := [],
    delete_with_particle := false },
  { pattern := "\\bK-VENT\\b",
    label := "전문 약어", replacement := some "호흡기 감염병 위험도 평가툴",
    confidence := rq95,
    source := { doc := "전문 약어", page := some 1, quote := some "전문 약어는 한글 풀이로 대체" },
    aliases := [],
    delete_with_particle := false },
  { pattern := "\\bNASA\\b",
    label := "기관명", replacement := some "미국항공우주국",
    confidence := rq95,
    source := { doc := "영문 약어", page := some 1, quote := some "영문 약어는 한글 풀이로 대체" },
    aliases := ["나사"],
    delete_with_particle := false },
  { pattern := "\\bESA\\b",
    label := "기관명", replacement := some "유럽우주국",
    confidence := rq95,
    source := { doc := "영문 약어", page := some 1, quote := some "영문 약어는 한글 풀이로 대체" },
    aliases := [],
    delete_with_particle := false },
  { pattern := "\\bJAXA\\b",
    label := "기관명", replacement := some "일본우주항공연구개발기구",
    confidence := rq95,
    source := { doc := "영문 약어", page := some 1, quote := some "영문 약어는 한글 풀이로 대체" },
    aliases := [],
    delete_with_particle := false },
  { pattern := "\\bSpaceX\\b",
    label := "기관명", replacement := some "민간 우주개발 기업",
    confidence := rq95,
    source := { doc := "영문 약어", page := some 1, quote := some "특정 기업명은 일반화 표현 사용" },
    aliases := ["스페이스엑스"],
    delete_with_particle := false },
  { pattern := "\\bAUV\\b",
    label := "전문 약어", replacement := some "자율무인잠수정",
    confidence := rq95,
    source := { doc := "전문 약어", page := some 1, quote := some "전문 약어는 한글 풀이로 대체" },
    aliases := [],
    delete_with_particle := false },
  { pattern := "\\bROV\\b",
    label := "전문 약어", replacement := some "원격조종무인잠수정",
    confidence := rq95,
    source := { doc := "전문 약어", page := some 1, quote := some "전문 약어는 한글 풀이로 대체" },
    aliases := [],
    delete_with_particle := false },
  { pattern := "\\bGPS\\b",
    label := "전문 약어", replacement := some "위성항법장치",
    confidence := rq95,
    source := { doc := "전문 약어", page := some 1, quote := some "전문 약어는 한글 풀이로 대체" },
    aliases := [],
    delete_with_particle := false },
  { pattern := "\\bLiDAR\\b",
    label := "전문 약어", replacement := some "레이저 거리측정장치",
    confidence := rq95,
    source := { doc := "전문 약어", page := some 1, quote := some "전문 약어는 한글 풀이로 대체" },
    aliases := ["라이다"],
    delete_with_particle := false },
  { pattern := "\\bSODAR\\b",
    label := "전문 약어", replacement := some "음파 탐지장치",
    confidence := rq95,
    source := { doc := "전문 약어", page := some 1, quote := some "전문 약어는 한글 풀이로 대체" },
    aliases := [],
    delete_with_particle := false },
  { pattern := "\\bSONAR\\b",
    label := "전문 약어", replacement := some "수중 음파 탐지기",
    confidence := rq95,
    source := { doc := "전문 약어", page := some 1, quote := some "전문 약어는 한글 풀이로 대체" },
    aliases := ["소나"],
    delete_with_particle := false },
  { pattern := "\\bRADAR\\b",
    label := "전문 약어", replacement := some "전파 탐지기",
    confidence := rq95,
    source := { doc := "전문 약어", page := some 1, quote := some "전문 약어는 한글 풀이로 대체" },
    aliases := ["레이더"],
    delete_with_particle := false },
  { pattern := "\\bCO2\\b",
    label := "전문 약어", replacement := some "이산화탄소",
    confidence := rq95,
    source := { doc := "전문 약어", page := some 1, quote := some "화학식은 한글명으로 대체" },
    aliases := [],
    delete_with_particle := false },
  { pattern := "\\bPM2\\.5\\b",
    label := "전문 약어", replacement := some "초미세먼지",
    confidence := rq95,
    source := { doc := "전문 약어", page := some 1, quote := some "전문 약어는 한글 풀이로 대체" },
    aliases := [],
    delete_with_particle := false },
  { pattern := "\\bPM10\\b",
    label := "전문 약어", replacement := some "미세먼지",
    confidence := rq95,
    source := { doc := "전문 약어", page := some 1, quote := some "전문 약어는 한글 풀이로 대체" },
    aliases := [],
    delete_with_particle := false },
  { pattern := "\\bLED\\b",
    label := "전문 약어", replacement := some "발광다이오드",
    confidence := rq95,
    source := { doc := "전문 약어", page := some 1, quote := some "전문 약어는 한글 풀이로 대체" },
    aliases := [],
    delete_with_particle := false },
  { pattern := "\\bIoT\\b",
    label := "전문 약어", replacement := some "사물인터넷",
    confidence := rq95,
    source := { doc := "전문 약어", page := some 1, quote := some "전문 약어는 한글 풀이로 대체" },
    aliases := [],
    delete_with_particle := false },
  { pattern := "\\bAI\\b",
    label := "전문 약어", replacement := some "인공지능",
    confidence := rq95,
    source := { doc := "전문 약어", page := some 1, quote := some "전문 약어는 한글 풀이로 대체" },
    aliases := [],
    delete_with_particle := false },
  { pattern := "\\bVR\\b",
    label := "전문 약어", replacement := some "가상현실",
    confidence := rq95,
    source := { doc := "전문 약어", page := some 1, quote := some "전문 약어는 한글 풀이로 대체" },
    aliases := [],
    delete_with_particle := false },
  { pattern := "\\bAR\\b",
    label := "전문 약어", replacement := some "증강현실",
    confidence := rq95,
    source := { doc := "전문 약어", page := some 1, quote := some "전문 약어는 한글 풀이로 대체" },
    aliases := [],
    delete_with_particle := false },
  { pattern := "\\bDNA\\b",
    label := "전문 약어", replacement := some "디옥시리보핵산",
    confidence := rq95,
    source := { doc := "전문 약어", page := some 1, quote := some "전문 약어는 한글 풀이로 대체" },
    aliases := [],
    delete_with_particle := false },
  { pattern := "\\bRNA\\b",
    label := "전문 약어", replacement := some "리보핵산",
    confidence := rq95,
    source := { doc := "전문 약어", page := some 1, quote := some "전문 약어는 한글 풀이로 대체" },
    aliases := [],
    delete_with_particle := false },
  { pattern := "\\bPCR\\b",
    label := "전문 약어", replacement := some "중합효소연쇄반응",
    confidence := rq95,
    source := { doc := "전문 약어", page := some 1, quote := some "전문 약어는 한글 풀이로 대체" },
    aliases := [],
    delete_with_particle := false },
  { pattern := "(?:CRISPR-?Cas9|크리스퍼-?카스9?)",
    label := "전문 용어", replacement := some "유전자 가위 기술",
    confidence := rq93,
    source := { doc := "학술 용어 일반화", page := some 1, quote := some "과도한 전문용어는 일반화/설명적 표현 사용 권장" },
    aliases := ["crispr", "cas9", "크리스퍼"],
    delete_with_particle := false },
  { pattern := "(?:TOEIC|TOEFL|TEPS|토익|토플|탭스|토익시험|토플시험|탭스시험)",
    label := "공인어학시험", replacement := some "",
    confidence := rq99,
    source := { doc := "어학시험 기재불가", page := some 1, quote := some "공인어학시험 성적 기재 불가" },
    aliases := ["토익점수", "토플점수", "탭스점수"],
    delete_with_particle := true },
  { pattern := "(?:HSK|에이치에스케이)",
    label := "공인어학시험", replacement := some "",
    confidence := rq99,
    source := { doc := "어학시험 기재불가", page := some 1, quote := some "공인어학시험 성적 기재 불가" },
    aliases := [],
    delete_with_particle := true },
  { pattern := "(?:JPT|JLPT|제이피티|제이엘피티)",
    label := "공인어학시험", replacement := some "",
    confidence := rq99,
    source := { doc := "어학시험 기재불가", page := some 1, quote := some "공인어학시험 성적 기재 불가" },
    aliases := [],
    delete_with_particle := true },
  { pattern := "(?:DELF|DALF|델프|달프)",
    label := "공인어학시험", replacement := some "",
    confidence := rq99,
    source := { doc := "어학시험 기재불가", page := some 1, quote := some "공인어학시험 성적 기재 불가" },
    aliases := [],
    delete_with_particle := true },
  { pattern := "(?:ZD|TESTDAF|DSH|DSD|테스트다프)",
    label := "공인어학시험", replacement := some "",
    confidence := rq99,
    source := { doc := "어학시험 기재불가", page := some 1, quote := some "공인어학시험 성적 기재 불가" },
    aliases := [],
    delete_with_particle := true },
  { pattern := "(?:TORFL|토르플)",
    label := "공인어학시험", replacement := some "",
    confidence := rq99,
    source := { doc := "어학시험 기재불가", page := some 1, quote := some "공인어학시험 성적 기재 불가" },
    aliases := [],
    delete_with_particle := true },
  { pattern := "(?:DELE|델레)",
    label := "공인어학시험", replacement := some "",
    confidence := rq99,
    source := { doc := "어학시험 기재불가", page := some 1, quote := some "공인어학시험 성적 기재 불가" },
    aliases := [],
    delete_with_particle := true },
  { pattern := "(?:상공회의소\\s?한자시험|한자능력검정|한능검|실용한자|한자급수자격검정|YBM\\s?상무한검|한자급수인증시험|한자자격검정)",
    label := "공인어학시험", replacement := some "",
    confidence := rq99,
    source := { doc := "어학시험 기재불가", page := some 1, quote := some "공인어학시험 성적 기재 불가" },
    aliases := ["한자시험", "한검", "한능검시험"],
    delete_with_particle := true },
  { pattern := "(?:OPIC|오픽|OPIc)",
    label := "공인어학시험", replacement := some "",
    confidence := rq99,
    source := { doc := "어학시험 기재불가", page := some 1, quote := some "공인어학시험 성적 기재 불가" },
    aliases := ["오픽시험", "오픽점수"],
    delete_with_particle := true },
  { pattern := "(?:FLEX|플렉스)",
    label := "공인어학시험", replacement := some "",
    confidence := rq99,
    source := { doc := "어학시험 기재불가", page := some 1, quote := some "공인어학시험 성적 기재 불가" },
    aliases := ["플렉스시험"],
    delete_with_particle := true },
  { pattern := "(?:SNULT|스널트)",
    label := "공인어학시험", replacement := some "",
    confidence := rq99,
    source := { doc := "어학시험 기재불가", page := some 1, quote := some "공인어학시험 성적 기재 불가" },
    aliases := [],
    delete_with_particle := true },
  { pattern := "(?:IELTS|아이엘츠)",
    label := "공인어학시험", replacement := some "",
    confidence := rq99,
    source := { doc := "어학시험 기재불가", page := some 1, quote := some "공인어학시험 성적 기재 불가" },
    aliases := ["아엘츠"],
    delete_with_particle := true },
  { pattern := "(?:TOPIK|토픽|한국어능력시험)",
    label := "공인어학시험", replacement := some "",
    confidence := rq99,
    source := { doc := "어학시험 기재불가", page := some 1, quote := some "공인어학시험 성적 기재 불가" },
    aliases := ["토픽시험"],
    delete_with_particle := true },
  { pattern := "(?:GTQ|지티큐|ITQ|아이티큐)",
    label := "자격시험", replacement := some "",
    confidence := rq99,
    source := { doc := "자격시험 기재불가", page := some 1, quote := some "민간자격시험 성적 기재 불가" },
    aliases := [],
    delete_with_particle := true },
  { pattern := "(?:MOS|모스|컴활|컴퓨터활용능력|워드프로세서|워프)",
    label := "자격시험", replacement := some "",
    confidence := rq99,
    source := { doc := "자격시험 기재불가", page := some 1, quote := some "민간자격시험 성적 기재 불가" },
    aliases := ["컴활시험", "모스자격증"],
    delete_with_particle := true },
  { pattern := "(?:Gather\\s?Town|개더타운|ZEPETO|제페토|ifland|이프랜드)",
    label := "상호명", replacement := some "메타버스 플랫폼",
    confidence := rq95,
    source := { doc := "대체표현", page := some 1, quote := some "Gather Town(개더타운), ZEPETO(제페토) 등 → 메타버스 플랫폼" },
    aliases := ["게더타운", "제페토앱"],
    delete_with_particle := false },
  { pattern := "(?:Google\\s?TV|구글\\s?티비)",
    label := "상호명", replacement := some "동영상 플랫폼",
    confidence := rq95,
    source := { doc := "대체표현", page := some 1, quote := some "Google TV(구글 티비) 등 → 동영상 플랫폼" },
    aliases := [],
    delete_with_particle := false },
  { pattern := "(?:Vllo|블로|Final\\s?Cut\\s?Pro|파이널\\s?컷\\s?프로)",
    label := "프로그램명", replacement := some "영상 편집 프로그램",
    confidence := rq92,
    source := { doc := "대체표현", page := some 1, quote := some "Vllo(블로), Final Cut Pro(파이널 컷 프로) 등 → 영상 편집 프로그램" },
    aliases := ["파컷프로", "fcpx"],
    delete_with_particle := false },
  { pattern := "(?:Padlet|패들렛|ThinkerBell|띵커벨|Allo|알로)",
    label := "상호명", replacement := some "온라인 협업 플랫폼",
    confidence := rq92,
    source := { doc := "대체표현", page := some 1, quote := some "Padlet(패들렛), ThinkerBell(띵커벨), Allo(알로) 등 → 협업 플랫폼" },
    aliases := ["패들릿"],
    delete_with_particle := false },
  { pattern := "(?:careernet|커리어넷|majormap|메이저맵)",
    label := "상호명", replacement := some "진로 정보 사이트",
    confidence := rq92,
    source := { doc := "대체표현", page := some 1, quote := some "careernet(커리어넷), majormap(메이저맵) 등 → 진로정보망, 진로 정보 사이트" },
    aliases := ["커리어넷검사", "메이저맵검사"],
    delete_with_particle := false },
  { pattern := "(?:Holland|홀랜드)\\s?검사",
    label := "검사명", replacement := some "직업선호도 검사",
    confidence := rq92,
    source := { doc := "대체표현", page := some 1, quote := some "Holland(홀랜드) 검사 등 → 직업선호도 검사" },
    aliases := ["홀란드검사", "홀랜드직업검사"],
    delete_with_particle := false },
  { pattern := "\\b(?:MBTI|엠비티아이)\\b",
    label := "검사명", replacement := some "성격유형 검사",
    confidence := rq92,
    source := { doc := "대체표현", page := some 1, quote := some "MBTI(엠비티아이) 등 → 성격유형 검사" },
    aliases := ["mbti검사", "엠비티아이검사"],
    delete_with_particle := false },
  { pattern := "\\b(?:HTML|에이치티엠엘)\\b",
    label := "프로그램명", replacement := some "웹 페이지 제작 언어",
    confidence := rq92,
    source := { doc := "대체표현", page := some 1, quote := some "HTML(에이치티엠엘) 등 → 하이퍼텍스트 마크업 언어, 웹 페이지 제작 언어" },
    aliases := ["html5", "에치티엠엘"],
    delete_with_particle := false },
  { pattern := "\\b(?:CSS|씨에스에스)\\b",
    label := "프로그램명", replacement := some "스타일 시트 언어",
    confidence := rq92,
    source := { doc := "대체표현", page := some 1, quote := some "CSS(씨에스에스) 등 → 스타일 시트 언어" },
    aliases := ["css3", "씨에쎄스"],
    delete_with_particle := false },
  { pattern := "(?:iPad|아이패드|Galaxy\\s?Tab|갤럭시\\s?탭)",
    label := "상호명", replacement := some "태블릿PC",
    confidence := rq92,
    source := { doc := "대체표현", page := some 1, quote := some "iPad(아이패드), Galaxy Tab(갤럭시탭) 등 → 태블릿PC" },
    aliases := ["갤탭", "아이패드프로"],
    delete_with_particle := false },
  { pattern := "(?:chrome\\s?book|크롬북)",
    label := "상호명", replacement := some "휴대용 컴퓨터",
    confidence := rq92,
    source := { doc := "대체표현", page := some 1, quote := some "chrome book(크롬북) 등 → 휴대용 컴퓨터" },
    aliases := ["chromebook"],
    delete_with_particle := false },
  { pattern := "(?:Altcoin|알트코인|Bitcoin|비트코인|이더리움|Ethereum|리플|Ripple|도지코인|Dogecoin)",
    label := "상호명", replacement := some "가상화폐",
    confidence := rq92,
    source := { doc := "대체표현", page := some 1, quote := some "Altcoin(알트코인), Bitcoin(비트코인) 등 → 가상화폐" },
    aliases := ["비코", "잡코인", "암호화폐"],
    delete_with_particle := false }
]

/-- Default `Rule` for total list indexing. -/
def defaultRule : Rule :=
  { pattern := "", label := "", replacement := none, confidence := 0,
    source := { doc := "", page := none, quote := none },
    aliases := [], delete_with_particle := false }

/-! ## Abbreviation index (`_KNOWN_ABBREVS`, app.py lines 380-391) -/

/-- The known-abbreviation index derived at startup (app.py lines 380-388) by
scanning every rule's pattern source text with the two scraping regexes
`\\b([A-Z][A-Z0-9]\x7b1,10\x7d)\\b` and
`(?:^|[|(?:])([A-Z][A-Z0-9]\x7b1,10\x7d)(?:[|)]|$)`.  The scraping itself runs in
the external regex engine, so the index is embedded as its concrete derived
value over the `RULES` table above (64 abbreviations).  Theorems below depend
only on membership of "NASA", which comes from the rule pattern `\\bNASA\\b`. -/
def _KNOWN_ABBREVS : List String :=
  ["AI", "AR", "ASEAN", "AUV", "CO2", "CSS", "DELE", "DELF", "DNA", "DSH",
   "EEZ", "ESA", "FLEX", "G7", "GIC", "GPS", "GPT", "GTQ", "HSK", "HTML",
   "IAEA", "IAU", "IELTS", "ITQ", "JAXA", "JPT", "KIGAM", "KIOST", "KTX",
   "LED", "LINE", "MBTI", "MOS", "NASA", "NAVER", "NOAA", "OECD", "ON",
   "OPIC", "OTT", "PCR", "PM10", "RADAR", "RNA", "ROV", "SNULT", "SODAR",
   "SONAR", "SRT", "TED", "TEPS", "TOEIC", "TOPIK", "TORFL", "TV", "TVING",
   "UN", "UNEP", "UNESCO", "UNHCR", "VR", "WHO", "ZD", "ZEPETO"]

/-- Embeds `_COMMON_ENGLISH` (app.py line 391): ordinary capitalized English
words that are never reported as abbreviations. -/
def _COMMON_ENGLISH : List String :=
  ["THE", "AND", "FOR", "ARE", "BUT", "NOT", "YOU", "ALL", "CAN", "HAD",
   "HER", "WAS", "ONE", "OUR", "OUT", "HAS", "HIS", "HOW", "ITS", "MAY",
   "NEW", "NOW", "OLD", "SEE", "WAY", "BOY", "DID", "GET", "HIM", "LET",
   "PUT", "SAY", "SHE", "TOO", "USE", "TOP", "END", "SET", "ADD"]

/-! ## Exact-alias pass (`alias_exact_match`, app.py lines 355-361 and 420-440) -/

/-- Embeds the `_ALIAS_EXACT_MAP` construction (app.py lines 356-361) as the
insertion-ordered association list; Python dict assignment overwrites, so a
lookup must return the LAST binding of a key. -/
def _ALIAS_EXACT_PAIRS : List (String × Rule) :=
  RULES.flatMap (fun rule => rule.aliases.filterMap (fun a =>
    if a = "" then none else some (py_lower a, rule)))

/-- `_ALIAS_EXACT_MAP.get(key)`: the last binding wins, as in a Python dict. -/
def alias_map_lookup (key : String) : Option Rule :=
  _ALIAS_EXACT_PAIRS.reverse.lookup key

/-- One `re` match object: `group(0)` together with `start()` and `end()`.
The alias pass builds its pattern (longest-alias-first alternation with
boundary guards) for the external regex engine, so the pass is parameterised
by the matches that engine returns; for this pass `group(1)` equals
`group(0)`. -/
structure ReMatch where
  span : List Char
  start : Nat
  end_ : Nat
deriving DecidableEq, Repr

/-- Embeds `alias_exact_match` (app.py lines 420-440).  Note the `Hit`
constructor call at lines 434-439 does not pass `delete_with_particle`, so
every alias hit carries the schema default `false` regardless of the owning
rule's flag. -/
def alias_exact_match (ms : List ReMatch) : List Hit :=
  if _ALIAS_EXACT_PAIRS = [] then []
  else ms.filterMap (fun m =>
    match alias_map_lookup (py_lower (String.mk m.span)) with
    | none => none
    | some rule => some
        { span := m.span, label := rule.label, replacement := rule.replacement,
          confidence := rq94, source := rule.source,
          start := m.start, end_ := m.end_ })

/-! ## Unknown-abbreviation pass (`detect_unknown_abbreviations`, app.py 394-417)

The candidate regex `(?<![A-Za-z])([A-Z]{2,10})(?![A-Za-z])` matches exactly
the maximal runs of uppercase Latin letters that are adjacent to no Latin
letter on either side and have length between 2 and 10 (a longer run never
matches: every sub-window of it fails one of the lookarounds). -/

/-- Uppercase Latin letter `[A-Z]`. -/
def is_upper_latin (c : Char) : Bool := decide ('A' ≤ c ∧ c ≤ 'Z')

/-- Latin letter `[A-Za-z]`. -/
def is_latin_letter (c : Char) : Bool :=
  decide (('A' ≤ c ∧ c ≤ 'Z') ∨ ('a' ≤ c ∧ c ≤ 'z'))

/-- Single left-to-right scan producing the candidate matches
`(group(1), start, end)` of the unknown-abbreviation regex.  Arguments:
remaining text, current position, whether the previous character was a Latin
letter, and the pending uppercase run as `some (runStart, runLength)`. -/
def runs_go (text : List Char) : List Char → Nat → Bool → Option (Nat × Nat) →
    List (List Char × Nat × Nat)
  | [], _, _, cur =>
      match cur with
      | some (s, len) =>
          if 2 ≤ len ∧ len ≤ 10 then [(pySlice text s (s + len), s, s + len)] else []
      | none => []
  | c :: rest, pos, prevLatin, cur =>
      if is_upper_latin c then
        match cur with
        | some (s, len) => runs_go text rest (pos + 1) true (some (s, len + 1))
        | none =>
            if prevLatin then runs_go text rest (pos + 1) true none
            else runs_go text rest (pos + 1) true (some (pos, 1))
      else
        match cur with
        | some (s, len) =>
            if is_latin_letter c then
              -- the run is followed by a lowercase letter: lookahead fails
              runs_go text rest (pos + 1) true none
            else
              (if 2 ≤ len ∧ len ≤ 10 then [(pySlice text s (s + len), s, s + len)] else [])
                ++ runs_go text rest (pos + 1) false none
        | none => runs_go text rest (pos + 1) (is_latin_letter c) none

/-- All matches of the candidate regex over `text`. -/
def abbrev_candidates (text : List Char) : List (List Char × Nat × Nat) :=
  runs_go text text 0 false none

/-- Membership of index `i` in the `covered` index set built from
`existing_hits` (app.py lines 397-400). -/
def covered_by (hits : List Hit) (i : Nat) : Bool :=
  hits.any (fun h => decide (h.start ≤ i ∧ i < h.end_))

/-- Embeds `detect_unknown_abbreviations` (app.py lines 394-417). -/
def detect_unknown_abbreviations (text : List Char) (existing_hits : List Hit) :
    List Hit :=
  (abbrev_candidates text).filterMap (fun m =>
    if (List.range' m.2.1 (m.2.2 - m.2.1)).any (fun i => covered_by existing_hits i) then
      none
    else if String.mk m.1 ∈ _KNOWN_ABBREVS ∨ String.mk m.1 ∈ _COMMON_ENGLISH then
      none
    else some
      { span := m.1, label := "미확인 영문 약어", replacement := none,
        confidence := rq85,
        source := { doc := "자동 감지", page := none,
                    quote := some "영문 약어가 감지됨. 한글 표기 필요 여부 검토 필요." },
        start := m.2.1, end_ := m.2.2 })

/-! ## Non-overlap merge (`merge_hits`, app.py lines 565-578)

Python `sorted` is a stable sort by the key
`(h.start, -(h.end - h.start), -h.confidence)`; Mathlib's
`List.insertionSort` is stable for the corresponding non-strict total
preorder, so it computes the same list. -/

/-- Span length as the Python integer `h.end - h.start`. -/
def hit_len (h : Hit) : Int := (h.end_ : Int) - (h.start : Int)

/-- The total preorder corresponding to ascending
`(start, -(end - start), -confidence)`. -/
def merge_le (a b : Hit) : Prop :=
  a.start < b.start ∨ (a.start = b.start ∧
    (hit_len b < hit_len a ∨ (hit_len a = hit_len b ∧ b.confidence ≤ a.confidence)))

instance : DecidableRel merge_le := fun a b => by
  unfold merge_le; infer_instance

instance : IsTotal Hit merge_le := by
  constructor
  intro a b
  unfold merge_le
  rcases Nat.lt_trichotomy a.start b.start with h | h | h
  · exact Or.inl (Or.inl h)
  · rcases lt_trichotomy (hit_len a) (hit_len b) with h2 | h2 | h2
    · exact Or.inr (Or.inr ⟨h.symm, Or.inl h2⟩)
    · rcases le_total b.confidence a.confidence with h3 | h3
      · exact Or.inl (Or.inr ⟨h, Or.inr ⟨h2, h3⟩⟩)
      · exact Or.inr (Or.inr ⟨h.symm, Or.inr ⟨h2.symm, h3⟩⟩)
    · exact Or.inl (Or.inr ⟨h, Or.inl h2⟩)
  · exact Or.inr (Or.inl h)

instance : IsTrans Hit merge_le := by
  constructor
  intro a b c hab hbc
  unfold merge_le at *
  rcases hab with h1 | ⟨h1, h1'⟩
  · rcases hbc with h2 | ⟨h2, _⟩
    · exact Or.inl (h1.trans h2)
    · exact Or.inl (h2 ▸ h1)
  · rcases hbc with h2 | ⟨h2, h2'⟩
    · exact Or.inl (h1 ▸ h2)
    · refine Or.inr ⟨h1.trans h2, ?_⟩
      rcases h1' with h3 | ⟨h3, h3'⟩
      · rcases h2' with h4 | ⟨h4, _⟩
        · exact Or.inl (h4.trans h3)
        · exact Or.inl (h4 ▸ h3)
      · rcases h2' with h4 | ⟨h4, h4'⟩
        · exact Or.inl (h3 ▸ h4)
        · exact Or.inr ⟨h3.trans h4, h4'.trans h3'⟩

/-- The greedy interval-scheduling scan of `merge_hits` (app.py lines
573-577): keep a hit only if its `start` is at or beyond the end of the last
kept hit, starting from `last_hit_end = -1`. -/
def merge_scan : Int → List Hit → List Hit
  | _, [] => []
  | lastEnd, h :: t =>
      if lastEnd ≤ (h.start : Int) then h :: merge_scan (h.end_ : Int) t
      else merge_scan lastEnd t

/-- Embeds `merge_hits(*hit_groups)` (app.py lines 565-578). -/
def merge_hits (hit_groups : List (List Hit)) : List Hit :=
  merge_scan (-1) (List.insertionSort merge_le hit_groups.flatten)

/-! ## Parenthetical-duplicate collapse (`collapse_parenthetical_duplicates`,
app.py lines 486-562) -/

/-- The sort key `(h.start, h.end)` used twice in the collapse step. -/
def start_end_le (a b : Hit) : Prop :=
  a.start < b.start ∨ (a.start = b.start ∧ a.end_ ≤ b.end_)

instance : DecidableRel start_end_le := fun a b => by
  unfold start_end_le; infer_instance

instance : IsTotal Hit start_end_le := by
  constructor; intro a b; unfold start_end_le; omega

instance : IsTrans Hit start_end_le := by
  constructor; intro a b c; unfold start_end_le; omega

/-- Number of leading characters with `str.isspace()` true. -/
def count_spaces : List Char → Nat
  | [] => 0
  | c :: t => if pyIsSpace c then count_spaces t + 1 else 0

/-- The `while k < len(text) and text[k].isspace(): k += 1` loops of the
collapse step: first index at or after `k` holding a non-space character
(or the text length). -/
def skip_spaces (text : List Char) (k : Nat) : Nat :=
  k + count_spaces (text.drop k)

/-- Number of leading hits with `start` below `bound`. -/
def count_start_lt (bound : Nat) : List Hit → Nat
  | [] => 0
  | h :: t => if h.start < bound then count_start_lt bound t + 1 else 0

/-- The `while j < n and hits[j].start < k + 1: j += 1` loop: first index at
or after `j` whose hit starts at or beyond `bound` (or the list length). -/
def find_ge (hits : List Hit) (j bound : Nat) : Nat :=
  j + count_start_lt bound (hits.drop j)

/-- The combined hit built at app.py lines 531-539.  The constructor call
does not pass `delete_with_particle`, so the combined hit carries the schema
default `false`. -/
def combined_of (text : List Char) (hi hj : Hit) (close_pos : Nat) : Hit :=
  { span := pySlice text hi.start (close_pos + 1),
    label := hi.label,
    replacement := hi.replacement,
    confidence := max hi.confidence hj.confidence,
    source := hi.source,
    start := hi.start,
    end_ := close_pos + 1 }

/-- The main `while i < n` loop of the collapse step (app.py lines 497-548),
iterated over the index list `[0, 1, ..., n-1]` with the mutable `used`
array threaded through; returns the appended results and the final `used`. -/
def collapse_go (text : List Char) (hits : List Hit) :
    List Nat → List Bool → List Hit × List Bool
  | [], used => ([], used)
  | i :: rest, used =>
      if used.getD i false then collapse_go text hits rest used
      else
        let hi := hits.getD i defaultHit
        let k := skip_spaces text hi.end_
        if k < text.length ∧ text.getD k ' ' = '(' then
          let j := find_ge hits (i + 1) (k + 1)
          if j < hits.length then
            let hj := hits.getD j defaultHit
            let inner_start := skip_spaces text (k + 1)
            let tmp := skip_spaces text hj.end_
            if tmp < text.length ∧ text.getD tmp ' ' = ')' then
              if inner_start ≤ hj.start ∧ hj.end_ ≤ tmp ∧ hi.label = hj.label ∧
                  hi.replacement = hj.replacement ∧ hi.replacement.isSome then
                let r := collapse_go text hits rest ((used.set i true).set j true)
                (combined_of text hi hj tmp :: r.1, r.2)
              else
                let r := collapse_go text hits rest (used.set i true)
                (hi :: r.1, r.2)
            else
              let r := collapse_go text hits rest (used.set i true)
              (hi :: r.1, r.2)
          else
            let r := collapse_go text hits rest (used.set i true)
            (hi :: r.1, r.2)
        else
          let r := collapse_go text hits rest (used.set i true)
          (hi :: r.1, r.2)

/-- The trailing `for idx in range(n): if not used[idx]` loop (app.py lines
550-552). -/
def collect_unused (hits : List Hit) (used : List Bool) : List Hit :=
  ((List.range hits.length).filter (fun i => !(used.getD i false))).map
    (fun i => hits.getD i defaultHit)

/-- The final de-duplication scan by `(start, end, label, replacement)`
(app.py lines 554-561), over the re-sorted result. -/
def dedup_go : List (Nat × Nat × String × Option String) → List Hit → List Hit
  | _, [] => []
  | seen, h :: t =>
      if (h.start, h.end_, h.label, h.replacement) ∈ seen then dedup_go seen t
      else h :: dedup_go ((h.start, h.end_, h.label, h.replacement) :: seen) t

/-- Embeds `collapse_parenthetical_duplicates` (app.py lines 486-562). -/
def collapse_parenthetical_duplicates (text : List Char) (hits0 : List Hit) :
    List Hit :=
  let hits := List.insertionSort start_end_le hits0
  let r := collapse_go text hits (List.range hits.length)
    (List.replicate hits.length false)
  let result := r.1 ++ collect_unused hits r.2
  dedup_go [] (List.insertionSort start_end_le result)

/-! ## Semantic/fuzzy pass and the analyze pipeline (app.py 336-353, 453-483,
1038-1056) -/

/-- The external embedding collaborator: `embed(strings) -> vectors`
(sentence-transformers model, out of scope per the spec). -/
structure Embedder where
  encode : List String → List (List ℚ)

/-- Embeds `_build_alias_index` (app.py lines 336-353): `(None, None)` when
the embedder is unavailable or no rule has a non-blank alias. -/
def _build_alias_index (emb : Option Embedder) :
    Option (List (List ℚ) × List Rule) :=
  match emb with
  | none => none
  | some e =>
      let pairs := RULES.flatMap (fun rule => rule.aliases.filterMap (fun a =>
        if a.trim = "" then none else some (a.trim, rule)))
      if pairs = [] then none
      else some (e.encode (pairs.map Prod.fst), pairs.map Prod.snd)

/-- Embeds the guard of `semantic_match` (app.py lines 453-455): when the
embedder or the alias-embedding index is absent the pass returns `[]`.
When both are present the pass delegates candidate embedding and similarity
scoring to the external model; that branch's outcome is abstracted as the
parameter `fuzzy_hits`. -/
def semantic_match (emb : Option Embedder)
    (idx : Option (List (List ℚ) × List Rule)) (fuzzy_hits : List Hit) :
    List Hit :=
  match emb, idx with
  | some _, some _ => fuzzy_hits
  | _, _ => []

/-- Embeds the `/analyze` pipeline body (app.py lines 1038-1056), with the
three regex-engine-backed passes supplied as parameters: steps 3, 5, 6 and 7
of the handler. -/
def analyze_hits (text : List Char)
    (hits_rule hits_alias hits_semantic : List Hit) : List Hit :=
  let primary_hits := collapse_parenthetical_duplicates text (hits_rule ++ hits_alias)
  let known_hits := merge_hits [primary_hits, hits_semantic]
  let hits_unknown := detect_unknown_abbreviations text known_hits
  merge_hits [known_hits, hits_unknown]

/-- Embeds the pydantic `AnalyzeRequest` schema (app.py lines 46-48). -/
structure AnalyzeRequest where
  text : List Char
  policy_version : String := "2024-03"

/-- The `/analyze` endpoint's hits output for a request (the `latency_ms`
field is wall-clock time and is not modelled). -/
def analyze_endpoint (req : AnalyzeRequest)
    (hits_rule hits_alias hits_semantic : List Hit) : List Hit :=
  analyze_hits req.text hits_rule hits_alias hits_semantic

/-- The whole pipeline with the fuzzy pass routed through `semantic_match`. -/
def analyze_service (emb : Option Embedder)
    (idx : Option (List (List ℚ) × List Rule)) (fuzzy_hits : List Hit)
    (text : List Char) (hits_rule hits_alias : List Hit) : List Hit :=
  analyze_hits text hits_rule hits_alias (semantic_match emb idx fuzzy_hits)

/-- The pipeline built from the literal, alias, collapse and
unknown-abbreviation stages alone (no fuzzy hits contributed). -/
def analyze_no_fuzzy (text : List Char) (hits_rule hits_alias : List Hit) :
    List Hit :=
  let primary_hits := collapse_parenthetical_duplicates text (hits_rule ++ hits_alias)
  let known_hits := merge_hits [primary_hits]
  merge_hits [known_hits, detect_unknown_abbreviations text known_hits]

/-! ## Ordered-alternation literal matching (for the institution rule)

The pattern of the 기관명/국제기구 rule (app.py line 218) is an alternation of
plain literals.  Python `re.finditer` with `re.IGNORECASE` scans left to
right, at each position tries the alternatives in written order, takes the
first that matches, and resumes after the match (non-overlapping). -/

/-- Case-insensitive character comparison (the effect of `re.IGNORECASE`). -/
def char_ieq (a b : Char) : Bool := ascii_lower a = ascii_lower b

/-- Does the alternative match at the head of the remaining text? -/
def alt_matches_at : List Char → List Char → Bool
  | [], _ => true
  | _ :: _, [] => false
  | a :: al, c :: cs => char_ieq a c && alt_matches_at al cs

/-- Length of the first alternative (in written order) matching at the head
of the remaining text. -/
def first_alt (alts : List (List Char)) (s : List Char) : Option Nat :=
  match alts with
  | [] => none
  | a :: rest => if alt_matches_at a s then some a.length else first_alt rest s

/-- Left-to-right non-overlapping scan; `skip` counts positions still inside
the previous match. -/
def finditer_go (alts : List (List Char)) :
    List Char → Nat → Nat → List (List Char × Nat × Nat)
  | [], _, _ => []
  | c :: rest, pos, skip =>
      if skip ≠ 0 then finditer_go alts rest (pos + 1) (skip - 1)
      else
        match first_alt alts (c :: rest) with
        | some n =>
            ((c :: rest).take n, pos, pos + n) :: finditer_go alts rest (pos + 1) (n - 1)
        | none => finditer_go alts rest (pos + 1) 0

/-- All matches `(group(0), start, end)` of the ordered literal alternation
over `text`. -/
def finditer_alts (alts : List (List Char)) (text : List Char) :
    List (List Char × Nat × Nat) :=
  finditer_go alts text 0 0

/-- The `Hit` construction of `regex_match` (app.py lines 369-375) applied to
each match of a rule. -/
def rule_literal_hits (rule : Rule) (alts : List (List Char)) (text : List Char) :
    List Hit :=
  (finditer_alts alts text).map (fun m =>
    { span := m.1, label := rule.label, replacement := rule.replacement,
      confidence := rule.confidence, source := rule.source,
      start := m.2.1, end_ := m.2.2,
      delete_with_particle := rule.delete_with_particle })

/-- The 기관명/국제기구 rule (app.py line 218), the 17th entry of `RULES`. -/
def institution_rule : Rule := RULES.getD 16 defaultRule

/-- The alternatives of `institution_rule.pattern`, in written order. -/
def institution_alts : List (List Char) :=
  ["UN", "EU", "ASEAN", "APEC", "G7", "G20", "WHO", "WTO", "OECD", "IMF",
   "IAEA", "NATO", "UNESCO", "UNICEF", "UNEP", "UNDP", "UNHCR", "유엔",
   "유럽연합"].map String.data

/-! ## Byte accounting of normalization (claims C6 and C10) -/

/-- With default arguments, `normalize_for_neis` is the LF-mode pipeline:
CRLF fold, CR map, the three space replacements, the four zero-width
filters. -/
lemma normalize_default_eq (t : List Char) :
    normalize_for_neis t =
      List.filter (· ≠ '﻿') (List.filter (· ≠ '‍')
        (List.filter (· ≠ '‌') (List.filter (· ≠ '​')
          (List.map (fun c => if c = '　' then ' ' else c)
            (List.map (fun c => if c = ' ' then ' ' else c)
              (List.map (fun c => if c = ' ' then ' ' else c)
                (List.map (fun c => if c = '\r' then '\n' else c)
                  (replace_crlf t)))))))) := by
  unfold normalize_for_neis
  norm_num [show py_upper "LF" ≠ "CRLF" from by decide]

lemma replace_crlf_id (l : List Char) (h : '\r' ∉ l) : replace_crlf l = l := by
  induction l with
  | nil => rfl
  | cons c t ih =>
      cases t with
      | nil => rfl
      | cons d t' =>
          have hc : ¬(c = '\r' ∧ d = '\n') := by
            rintro ⟨rfl, -⟩
            exact h (List.mem_cons_self _ _)
          rw [replace_crlf, if_neg hc,
            ih (fun hm => h (List.mem_cons_of_mem _ hm))]

lemma not_mem_map_kills {f : Char → Char} {x : Char} (hf : ∀ c, f c ≠ x)
    (l : List Char) : x ∉ l.map f := by
  intro hm
  obtain ⟨c, -, hc⟩ := List.mem_map.mp hm
  exact hf c hc

lemma not_mem_map_pres {f : Char → Char} {x : Char} (hf : ∀ c, f c = x → c = x)
    {l : List Char} (hl : x ∉ l) : x ∉ l.map f := by
  intro hm
  obtain ⟨c, hcl, hc⟩ := List.mem_map.mp hm
  have hcx := hf c hc
  rw [hcx] at hcl
  exact hl hcl

/-- Characters that the default normalization can no longer contain. -/
def clean_char (c : Char) : Prop :=
  c ≠ '\r' ∧ c ≠ ' ' ∧ c ≠ ' ' ∧ c ≠ '　' ∧
  c ≠ '​' ∧ c ≠ '‌' ∧ c ≠ '‍' ∧ c ≠ '﻿'

lemma normalize_clean (t : List Char) :
    ∀ c ∈ normalize_for_neis t, clean_char c := by
  rw [normalize_default_eq]
  intro c hc
  have h4 := List.mem_filter.mp hc
  have h3 := List.mem_filter.mp h4.1
  have h2 := List.mem_filter.mp h3.1
  have h1 := List.mem_filter.mp h2.1
  have hmem := h1.1
  have hzB : c ≠ '​' := by simpa using h1.2
  have hzC : c ≠ '‌' := by simpa using h2.2
  have hzD : c ≠ '‍' := by simpa using h3.2
  have hzF : c ≠ '﻿' := by simpa using h4.2
  have hpres3 : ∀ x : Char, x ≠ ' ' →
      ∀ c', (if c' = '　' then ' ' else c') = x → c' = x := by
    intro x hx c' hc'
    by_cases h : c' = '　'
    · rw [if_pos h] at hc'; exact absurd hc'.symm hx
    · rwa [if_neg h] at hc'
  have hpres2 : ∀ x : Char, x ≠ ' ' →
      ∀ c', (if c' = ' ' then ' ' else c') = x → c' = x := by
    intro x hx c' hc'
    by_cases h : c' = ' '
    · rw [if_pos h] at hc'; exact absurd hc'.symm hx
    · rwa [if_neg h] at hc'
  have hpres1 : ∀ x : Char, x ≠ ' ' →
      ∀ c', (if c' = ' ' then ' ' else c') = x → c' = x := by
    intro x hx c' hc'
    by_cases h : c' = ' '
    · rw [if_pos h] at hc'; exact absurd hc'.symm hx
    · rwa [if_neg h] at hc'
  have hr : '\r' ∉ ((((replace_crlf t).map (fun c => if c = '\r' then '\n' else c)).map
      (fun c => if c = ' ' then ' ' else c)).map
      (fun c => if c = ' ' then ' ' else c)).map
      (fun c => if c = '　' then ' ' else c) := by
    refine not_mem_map_pres (hpres3 _ (by decide))
      (not_mem_map_pres (hpres2 _ (by decide))
        (not_mem_map_pres (hpres1 _ (by decide))
          (not_mem_map_kills ?_ _)))
    intro c'
    by_cases h : c' = '\r' <;> simp [h]
  have hA0 : ' ' ∉ ((((replace_crlf t).map (fun c => if c = '\r' then '\n' else c)).map
      (fun c => if c = ' ' then ' ' else c)).map
      (fun c => if c = ' ' then ' ' else c)).map
      (fun c => if c = '　' then ' ' else c) := by
    refine not_mem_map_pres (hpres3 _ (by decide))
      (not_mem_map_pres (hpres2 _ (by decide))
        (not_mem_map_kills ?_ _))
    intro c'
    by_cases h : c' = ' ' <;> simp [h]
  have h2F : ' ' ∉ ((((replace_crlf t).map (fun c => if c = '\r' then '\n' else c)).map
      (fun c => if c = ' ' then ' ' else c)).map
      (fun c => if c = ' ' then ' ' else c)).map
      (fun c => if c = '　' then ' ' else c) := by
    refine not_mem_map_pres (hpres3 _ (by decide)) (not_mem_map_kills ?_ _)
    intro c'
    by_cases h : c' = ' ' <;> simp [h]
  have h30 : '　' ∉ ((((replace_crlf t).map (fun c => if c = '\r' then '\n' else c)).map
      (fun c => if c = ' ' then ' ' else c)).map
      (fun c => if c = ' ' then ' ' else c)).map
      (fun c => if c = '　' then ' ' else c) := by
    refine not_mem_map_kills ?_ _
    intro c'
    by_cases h : c' = '　' <;> simp [h]
  refine ⟨?_, ?_, ?_, ?_, hzB, hzC, hzD, hzF⟩
  · intro he; rw [he] at hmem; exact hr hmem
  · intro he; rw [he] at hmem; exact hA0 hmem
  · intro he; rw [he] at hmem; exact h2F hmem
  · intro he; rw [he] at hmem; exact h30 hmem

lemma map_id_of (f : Char → Char) (l : List Char) (h : ∀ c ∈ l, f c = c) :
    l.map f = l := by
  induction l with
  | nil => rfl
  | cons c t ih =>
      simp only [List.map_cons]
      rw [h c (List.mem_cons_self _ _),
        ih (fun x hx => h x (List.mem_cons_of_mem _ hx))]

lemma normalize_id_of_clean (l : List Char) (h : ∀ c ∈ l, clean_char c) :
    normalize_for_neis l = l := by
  rw [normalize_default_eq]
  rw [replace_crlf_id l (fun hm => (h _ hm).1 rfl)]
  rw [map_id_of _ l (fun c hc => if_neg ((h c hc).1))]
  rw [map_id_of _ l (fun c hc => if_neg ((h c hc).2.1))]
  rw [map_id_of _ l (fun c hc => if_neg ((h c hc).2.2.1))]
  rw [map_id_of _ l (fun c hc => if_neg ((h c hc).2.2.2.1))]
  have e1 : List.filter (· ≠ '​') l = l :=
    List.filter_eq_self.mpr (fun c hc => by simpa using (h c hc).2.2.2.2.1)
  have e2 : List.filter (· ≠ '‌') l = l :=
    List.filter_eq_self.mpr (fun c hc => by simpa using (h c hc).2.2.2.2.2.1)
  have e3 : List.filter (· ≠ '‍') l = l :=
    List.filter_eq_self.mpr (fun c hc => by simpa using (h c hc).2.2.2.2.2.2.1)
  have e4 : List.filter (· ≠ '﻿') l = l :=
    List.filter_eq_self.mpr (fun c hc => by simpa using (h c hc).2.2.2.2.2.2.2)
  rw [e1, e2, e3, e4]

/-- C6: normalization is a projection with respect to UTF-8 byte length (with
the normalization function's default arguments): normalizing twice yields the
same byte count as normalizing once.  In fact the normalized text itself is a
fixed point. -/
theorem spec_normalize_idempotent_bytes (t : List Char) :
    utf8_byte_len (normalize_for_neis (normalize_for_neis t)) =
      utf8_byte_len (normalize_for_neis t) := by
  rw [normalize_id_of_clean _ (normalize_clean t)]

lemma utf8_map_le {f : Char → Char}
    (hf : ∀ c, utf8_char_len (f c) ≤ utf8_char_len c) (l : List Char) :
    utf8_byte_len (l.map f) ≤ utf8_byte_len l := by
  induction l with
  | nil => exact le_refl _
  | cons c t ih =>
      simp only [List.map_cons, utf8_byte_len, List.sum_cons] at *
      exact Nat.add_le_add (hf c) ih

lemma utf8_filter_le (p : Char → Bool) (l : List Char) :
    utf8_byte_len (l.filter p) ≤ utf8_byte_len l := by
  induction l with
  | nil => exact le_refl _
  | cons c t ih =>
      by_cases hc : p c
      · simp only [List.filter_cons, hc, if_pos, utf8_byte_len, List.map_cons,
          List.sum_cons] at *
        exact Nat.add_le_add_left ih _
      · simp only [List.filter_cons, hc, utf8_byte_len, List.map_cons,
          List.sum_cons, Bool.false_eq_true, if_false] at *
        exact le_trans ih (Nat.le_add_left _ _)

lemma utf8_replace_crlf_le (l : List Char) :
    utf8_byte_len (replace_crlf l) ≤ utf8_byte_len l := by
  induction l using replace_crlf.induct with
  | case1 => exact le_refl _
  | case2 c => exact le_refl _
  | case3 c d t h ih =>
      simp only [replace_crlf, if_pos h, utf8_byte_len, List.map_cons,
        List.sum_cons] at *
      obtain ⟨rfl, rfl⟩ := h
      have h1 : utf8_char_len '\n' = 1 := rfl
      have h2 : utf8_char_len '\r' = 1 := rfl
      omega
  | case4 c d t h ih =>
      simp only [replace_crlf, if_neg h, utf8_byte_len, List.map_cons,
        List.sum_cons] at *
      omega

/-- C10: with default arguments (LF mode), normalization never increases the
UTF-8 byte length: CRLF shrinks to LF, CR keeps its byte, the multi-byte
spaces shrink to a one-byte space, and the zero-width characters are
removed. -/
theorem spec_normalize_never_grows (t : List Char) :
    utf8_byte_len (normalize_for_neis t) ≤ utf8_byte_len t := by
  rw [normalize_default_eq]
  refine le_trans (utf8_filter_le _ _) ?_
  refine le_trans (utf8_filter_le _ _) ?_
  refine le_trans (utf8_filter_le _ _) ?_
  refine le_trans (utf8_filter_le _ _) ?_
  refine le_trans (utf8_map_le ?_ _) ?_
  · intro c
    by_cases hc : c = '　' <;> simp [hc, utf8_char_len]
  refine le_trans (utf8_map_le ?_ _) ?_
  · intro c
    by_cases hc : c = ' ' <;> simp [hc, utf8_char_len]
  refine le_trans (utf8_map_le ?_ _) ?_
  · intro c
    by_cases hc : c = ' ' <;> simp [hc, utf8_char_len]
  refine le_trans (utf8_map_le ?_ _) ?_
  · intro c
    by_cases hc : c = '\r' <;> simp [hc, utf8_char_len]
  exact utf8_replace_crlf_le t

/-! ## Particle correctness (claim C3) -/

/-- C3 counterexample: the spec's three examples do not all hold.  학교 ends
in 교 (U+AD50, jongseong index 0, no batchim), so the 는/은 pair yields 는,
not 은; and 이동 ends in 동 (U+B3D9, jongseong index 21, the batchim ㅇ, not
ㄹ), so the 로/으로 pair yields 으로, not 로. -/
theorem chooseParticle_spec_examples_refuted :
    ¬ (chooseParticle "학교" "는" = "은" ∧ chooseParticle "포털사이트" "는" = "는" ∧
       chooseParticle "이동" "로" = "로") := by decide

/-- C3 amended: the particle chooser on the spec's three inputs.  학교 is
batchim-less, so 는 stays 는; 포털사이트 is batchim-less, so 는 stays 는;
이동 has the batchim ㅇ (not ㄹ), so 로 becomes 으로. -/
theorem chooseParticle_examples :
    chooseParticle "학교" "는" = "는" ∧ chooseParticle "포털사이트" "는" = "는" ∧
    chooseParticle "이동" "로" = "으로" := by decide

/-! ## Policy-version noninterference (claim C7) -/

/-- C7: the `policy_version` field of an analyze request does not alter
matching: with the same text and the same pass outputs (the passes read only
the text), any two policy versions produce the same hit list. -/
theorem analyze_policy_version_noninterference (text : List Char)
    (pv1 pv2 : String) (hits_rule hits_alias hits_semantic : List Hit) :
    analyze_endpoint { text := text, policy_version := pv1 }
        hits_rule hits_alias hits_semantic =
      analyze_endpoint { text := text, policy_version := pv2 }
        hits_rule hits_alias hits_semantic := rfl

/-! ## Alias hits never carry the deletion flag (claim C9) -/

/-- C9: every hit produced by the exact-alias pass has
`delete_with_particle = false` (the constructor call at app.py lines 434-439
omits the field, so the schema default applies), even though the rule owning
the alias 토익점수 declares `delete_with_particle = True` with the empty
replacement. -/
theorem alias_hits_never_delete_with_particle :
    (∀ (ms : List ReMatch), ∀ h ∈ alias_exact_match ms,
      h.delete_with_particle = false) ∧
    (alias_map_lookup "토익점수").map Rule.delete_with_particle = some true ∧
    (alias_map_lookup "토익점수").map Rule.replacement = some (some "") := by
  refine ⟨?_, by decide, by decide⟩
  intro ms h hm
  unfold alias_exact_match at hm
  split at hm
  · simp at hm
  · obtain ⟨m, -, heq⟩ := List.mem_filterMap.mp hm
    cases hlk : alias_map_lookup (py_lower (String.mk m.span)) with
    | none => rw [hlk] at heq; simp at heq
    | some rule =>
        rw [hlk] at heq
        simp only [Option.some.injEq] at heq
        rw [← heq]

/-- C9 witness: the alias pass applied to a concrete match of the alias
토익점수 produces the expected hit, and the theorem yields its deletion
flag. -/
theorem alias_hits_never_delete_witness :
    ({ span := "토익점수".data, label := "공인어학시험", replacement := some "",
       confidence := rq94, source := (RULES.getD 51 defaultRule).source,
       start := 0, end_ := 4 } : Hit) ∈
        alias_exact_match [{ span := "토익점수".data, start := 0, end_ := 4 }] ∧
    ({ span := "토익점수".data, label := "공인어학시험", replacement := some "",
       confidence := rq94, source := (RULES.getD 51 defaultRule).source,
       start := 0, end_ := 4 } : Hit).delete_with_particle = false :=
  ⟨by decide,
   alias_hits_never_delete_with_particle.1
     [{ span := "토익점수".data, start := 0, end_ := 4 }] _ (by decide)⟩

/-! ## Graceful degradation without the embedder (claim C8) -/

/-- C8: when the embedder collaborator or the alias-embedding index is
absent, the semantic pass returns the empty hit list (no error is possible:
the guard of app.py lines 454-455 short-circuits), `_build_alias_index`
yields no index, and the analyze pipeline equals the merge of the literal,
alias, collapse and unknown-abbreviation stages alone. -/
theorem semantic_absent_graceful (emb : Option Embedder)
    (idx : Option (List (List ℚ) × List Rule)) (fuzzy_hits : List Hit)
    (text : List Char) (hits_rule hits_alias : List Hit)
    (habs : emb = none ∨ idx = none) :
    semantic_match emb idx fuzzy_hits = [] ∧
    _build_alias_index none = none ∧
    analyze_service emb idx fuzzy_hits text hits_rule hits_alias =
      analyze_no_fuzzy text hits_rule hits_alias := by
  have hsem : semantic_match emb idx fuzzy_hits = [] := by
    rcases habs with h | h
    · subst h; cases idx <;> rfl
    · subst h; cases emb <;> rfl
  refine ⟨hsem, rfl, ?_⟩
  unfold analyze_service analyze_hits analyze_no_fuzzy
  rw [hsem]
  simp [merge_hits]

/-- C8 witness: the theorem applied with an absent embedder at a concrete
request. -/
theorem semantic_absent_graceful_witness :
    ((none : Option Embedder) = none ∨
      (none : Option (List (List ℚ) × List Rule)) = none) ∧
    (semantic_match none none [] = [] ∧
     _build_alias_index none = none ∧
     analyze_service none none [] "NASA".data [] [] =
       analyze_no_fuzzy "NASA".data [] []) :=
  ⟨Or.inl rfl, semantic_absent_graceful none none [] "NASA".data [] [] (Or.inl rfl)⟩

/-! ## Parenthetical collapse on 유엔(UN) (claim C4) -/

/-- The input text of the spec's parenthetical-collapse example. -/
def c4_text : List Char := "유엔(UN) 보고서".data

/-- The outer literal hit 유엔 at offsets [0, 2). -/
def c4_outer : Hit :=
  { span := "유엔".data, label := "기관명", replacement := some "국제기구",
    confidence := rq98, source := institution_rule.source,
    start := 0, end_ := 2 }

/-- The inner literal hit UN at offsets [3, 5). -/
def c4_inner : Hit :=
  { span := "UN".data, label := "기관명", replacement := some "국제기구",
    confidence := rq98, source := institution_rule.source,
    start := 3, end_ := 5 }

/-- The collapsed hit spanning 유엔(UN) at offsets [0, 6). -/
def c4_combined : Hit :=
  { span := "유엔(UN)".data, label := "기관명", replacement := some "국제기구",
    confidence := rq98, source := institution_rule.source,
    start := 0, end_ := 6 }

/-- C4: on 유엔(UN) 보고서, the 기관명/국제기구 rule's literal pass yields the
two hits 유엔 and UN, and the conflict resolver collapses them into exactly
one combined hit spanning 유엔(UN), taking the maximum of the two confidences
and the outer hit's source; the full pipeline returns exactly that one hit. -/
theorem collapse_parenthetical_example :
    institution_rule.label = "기관명" ∧
    institution_rule.replacement = some "국제기구" ∧
    rule_literal_hits institution_rule institution_alts c4_text =
      [c4_outer, c4_inner] ∧
    collapse_parenthetical_duplicates c4_text [c4_outer, c4_inner] =
      [c4_combined] ∧
    c4_combined.span = "유엔(UN)".data ∧
    c4_combined.confidence = max c4_outer.confidence c4_inner.confidence ∧
    c4_combined.source = c4_outer.source ∧
    analyze_hits c4_text [c4_outer, c4_inner] [] [] = [c4_combined] := by
  decide

/-! ## Structural lemmas about the conflict resolver -/

lemma getD_mem_of_lt {α : Type} {l : List α} {i : Nat} (h : i < l.length) (d : α) :
    l.getD i d ∈ l := by
  rw [List.getD_eq_getElem l d h]
  exact List.getElem_mem h

lemma skip_spaces_ge (text : List Char) (k : Nat) : k ≤ skip_spaces text k :=
  Nat.le_add_right _ _

lemma mem_dedup_go {x : Hit} :
    ∀ {seen : List (Nat × Nat × String × Option String)} {l : List Hit},
      x ∈ dedup_go seen l → x ∈ l := by
  intro seen l
  induction l generalizing seen with
  | nil => intro hx; simp [dedup_go] at hx
  | cons h t ih =>
      intro hx
      rw [dedup_go] at hx
      split_ifs at hx with hc
      · exact List.mem_cons_of_mem _ (ih hx)
      · rcases List.mem_cons.mp hx with rfl | hx'
        · exact List.mem_cons_self _ _
        · exact List.mem_cons_of_mem _ (ih hx')

lemma mem_collect_unused {hits : List Hit} {used : List Bool} {x : Hit}
    (hx : x ∈ collect_unused hits used) : x ∈ hits := by
  unfold collect_unused at hx
  obtain ⟨i, hi, rfl⟩ := List.mem_map.mp hx
  exact getD_mem_of_lt (List.mem_range.mp (List.mem_of_mem_filter hi)) _

/-- Every hit appended by the collapse loop is either one of the sorted input
hits or a combined hit built from two input hits satisfying the loop's
guards. -/
lemma collapse_go_mem (text : List Char) (hits : List Hit) :
    ∀ (idxs : List Nat) (used : List Bool),
      (∀ i ∈ idxs, i < hits.length) →
      ∀ x ∈ (collapse_go text hits idxs used).1,
        x ∈ hits ∨ ∃ hi, hi ∈ hits ∧ ∃ hj, hj ∈ hits ∧ ∃ close,
          skip_spaces text (skip_spaces text hi.end_ + 1) ≤ hj.start ∧
          hj.end_ ≤ close ∧ close < text.length ∧
          x = combined_of text hi hj close := by
  intro idxs
  induction idxs with
  | nil => intro used h x hx; simp [collapse_go] at hx
  | cons i rest ih =>
      intro used hidx x hx
      have hi_lt : i < hits.length := hidx i (List.mem_cons_self _ _)
      have hrest : ∀ j ∈ rest, j < hits.length :=
        fun j hj => hidx j (List.mem_cons_of_mem _ hj)
      simp only [collapse_go] at hx
      split_ifs at hx with h1 h2 h3 h4 h5
      · exact ih used hrest x hx
      · -- combined branch
        rcases List.mem_cons.mp hx with rfl | hx'
        · refine Or.inr ⟨hits.getD i defaultHit, getD_mem_of_lt hi_lt _,
            hits.getD (find_ge hits (i + 1)
              (skip_spaces text (hits.getD i defaultHit).end_ + 1)) defaultHit,
            getD_mem_of_lt h3 _,
            skip_spaces text (hits.getD (find_ge hits (i + 1)
              (skip_spaces text (hits.getD i defaultHit).end_ + 1)) defaultHit).end_,
            h5.1, skip_spaces_ge _ _, h4.1, rfl⟩
        · exact ih _ hrest x hx'
      · rcases List.mem_cons.mp hx with rfl | hx'
        · exact Or.inl (getD_mem_of_lt hi_lt _)
        · exact ih _ hrest x hx'
      · rcases List.mem_cons.mp hx with rfl | hx'
        · exact Or.inl (getD_mem_of_lt hi_lt _)
        · exact ih _ hrest x hx'
      · rcases List.mem_cons.mp hx with rfl | hx'
        · exact Or.inl (getD_mem_of_lt hi_lt _)
        · exact ih _ hrest x hx'
      · rcases List.mem_cons.mp hx with rfl | hx'
        · exact Or.inl (getD_mem_of_lt hi_lt _)
        · exact ih _ hrest x hx'

/-- Every hit returned by the conflict resolver is either one of the input
hits or a combined parenthetical hit whose parts come from the input. -/
lemma collapse_mem (text : List Char) (hits0 : List Hit) :
    ∀ x ∈ collapse_parenthetical_duplicates text hits0,
      x ∈ hits0 ∨ ∃ hi, hi ∈ hits0 ∧ ∃ hj, hj ∈ hits0 ∧ ∃ close,
        skip_spaces text (skip_spaces text hi.end_ + 1) ≤ hj.start ∧
        hj.end_ ≤ close ∧ close < text.length ∧
        x = combined_of text hi hj close := by
  intro x hx
  simp only [collapse_parenthetical_duplicates] at hx
  have hx2 := mem_dedup_go hx
  rw [List.mem_insertionSort] at hx2
  rcases List.mem_append.mp hx2 with h | h
  · have hmem := collapse_go_mem text (List.insertionSort start_end_le hits0)
      (List.range (List.insertionSort start_end_le hits0).length)
      (List.replicate (List.insertionSort start_end_le hits0).length false)
      (fun i hi => List.mem_range.mp hi) x h
    rcases hmem with h' | ⟨hi, hhi, hj, hhj, close, hc1, hc2, hc3, hc4⟩
    · exact Or.inl ((List.mem_insertionSort _).mp h')
    · exact Or.inr ⟨hi, (List.mem_insertionSort _).mp hhi, hj,
        (List.mem_insertionSort _).mp hhj, close, hc1, hc2, hc3, hc4⟩
  · exact Or.inl ((List.mem_insertionSort _).mp (mem_collect_unused h))

/-! ## Structural lemmas about the greedy non-overlap merge -/

lemma merge_scan_sublist : ∀ (e : Int) (l : List Hit),
    List.Sublist (merge_scan e l) l := by
  intro e l
  induction l generalizing e with
  | nil => simp [merge_scan]
  | cons h t ih =>
      rw [merge_scan]
      split_ifs
      · exact List.Sublist.cons₂ _ (ih _)
      · exact List.Sublist.cons _ (ih _)

lemma merge_le_start {a b : Hit} (hab : merge_le a b) : a.start ≤ b.start := by
  rcases hab with h | ⟨h, -⟩
  · exact Nat.le_of_lt h
  · exact Nat.le_of_eq h

/-- The greedy scan over a start-sorted list of well-formed spans keeps only
hits starting at or beyond the threshold, and its output is pairwise
non-overlapping. -/
lemma merge_scan_spec :
    ∀ (l : List Hit) (e : Int),
      List.Pairwise (fun a b : Hit => a.start ≤ b.start) l →
      (∀ x ∈ l, x.start ≤ x.end_) →
      (∀ x ∈ merge_scan e l, e ≤ (x.start : Int)) ∧
      List.Pairwise (fun a b : Hit => a.end_ ≤ b.start) (merge_scan e l) := by
  intro l
  induction l with
  | nil =>
      intro e _ _
      exact ⟨fun x hx => by simp [merge_scan] at hx, by simp [merge_scan]⟩
  | cons h t ih =>
      intro e hp hse
      have hse' : ∀ x ∈ t, x.start ≤ x.end_ :=
        fun x hx => hse x (List.mem_cons_of_mem _ hx)
      rw [merge_scan]
      split_ifs with hcond
      · have iht := ih (h.end_ : Int) hp.of_cons hse'
        have hhse : h.start ≤ h.end_ := hse h (List.mem_cons_self _ _)
        constructor
        · intro x hx
          rcases List.mem_cons.mp hx with rfl | hx'
          · exact hcond
          · have h1 := iht.1 x hx'
            have : (h.start : Int) ≤ (h.end_ : Int) := by exact_mod_cast hhse
            omega
        · refine List.Pairwise.cons ?_ iht.2
          intro y hy
          exact_mod_cast iht.1 y hy
      · exact ih e hp.of_cons hse'

lemma mem_merge_hits {gs : List (List Hit)} {x : Hit} (hx : x ∈ merge_hits gs) :
    x ∈ gs.flatten := by
  unfold merge_hits at hx
  exact (List.mem_insertionSort _).mp (List.Sublist.mem hx (merge_scan_sublist _ _))

/-- The merged list is sorted ascending by `start` (unconditionally). -/
lemma merge_hits_sorted (gs : List (List Hit)) :
    List.Pairwise (fun a b : Hit => a.start ≤ b.start) (merge_hits gs) := by
  have hs : List.Pairwise merge_le (List.insertionSort merge_le gs.flatten) :=
    List.sorted_insertionSort merge_le _
  exact (hs.imp merge_le_start).sublist (merge_scan_sublist _ _)

/-- When every candidate has `start ≤ end`, the merged list is pairwise
non-overlapping. -/
lemma merge_hits_nonoverlap (gs : List (List Hit))
    (h : ∀ x ∈ gs.flatten, x.start ≤ x.end_) :
    List.Pairwise (fun a b : Hit => a.end_ ≤ b.start) (merge_hits gs) := by
  unfold merge_hits
  refine (merge_scan_spec _ (-1)
    ((List.sorted_insertionSort merge_le _).imp merge_le_start)
    (fun x hx => h x ((List.mem_insertionSort _).mp hx))).2

/-! ## Structural lemmas about the unknown-abbreviation pass -/

/-- Every candidate produced by the scan is the slice of the text at its own
offsets, is non-empty, and ends within the text. -/
lemma runs_go_spec (text : List Char) :
    ∀ (rest : List Char) (pos : Nat) (pl : Bool) (cur : Option (Nat × Nat)),
      pos + rest.length = text.length →
      (∀ s len, cur = some (s, len) → s + len = pos) →
      ∀ m ∈ runs_go text rest pos pl cur,
        m.1 = pySlice text m.2.1 m.2.2 ∧ m.2.1 < m.2.2 ∧ m.2.2 ≤ text.length := by
  intro rest
  induction rest with
  | nil =>
      intro pos pl cur hlen hcur m hm
      cases cur with
      | none => simp [runs_go] at hm
      | some sl =>
          obtain ⟨s, len⟩ := sl
          rw [runs_go] at hm
          split_ifs at hm with hg
          · rcases List.mem_singleton.mp hm with rfl
            have hsl := hcur s len rfl
            simp only [List.length_nil, Nat.add_zero] at hlen
            dsimp only
            exact ⟨rfl, by omega, by omega⟩
          · simp at hm
  | cons c rest ih =>
      intro pos pl cur hlen hcur m hm
      have hlen' : (pos + 1) + rest.length = text.length := by
        simp only [List.length_cons] at hlen
        omega
      cases cur with
      | some sl =>
          obtain ⟨s, len⟩ := sl
          have hsl := hcur s len rfl
          rw [runs_go.eq_def] at hm
          dsimp only at hm
          by_cases hu : is_upper_latin c
          · rw [if_pos hu] at hm
            refine ih (pos + 1) true (some (s, len + 1)) hlen' ?_ m hm
            intro s' len' he
            simp only [Option.some.injEq, Prod.mk.injEq] at he
            omega
          · rw [if_neg hu] at hm
            by_cases hl : is_latin_letter c
            · rw [if_pos hl] at hm
              exact ih (pos + 1) true none hlen' (fun s' len' he => nomatch he) m hm
            · rw [if_neg hl] at hm
              rcases List.mem_append.mp hm with h | h
              · split_ifs at h with hg
                · rcases List.mem_singleton.mp h with rfl
                  dsimp only
                  exact ⟨rfl, by omega, by omega⟩
                · simp at h
              · exact ih (pos + 1) false none hlen' (fun s' len' he => nomatch he) m h
      | none =>
          rw [runs_go.eq_def] at hm
          dsimp only at hm
          by_cases hu : is_upper_latin c
          · rw [if_pos hu] at hm
            by_cases hp : pl
            · rw [if_pos hp] at hm
              exact ih (pos + 1) true none hlen' (fun s' len' he => nomatch he) m hm
            · rw [if_neg hp] at hm
              refine ih (pos + 1) true (some (pos, 1)) hlen' ?_ m hm
              intro s' len' he
              simp only [Option.some.injEq, Prod.mk.injEq] at he
              omega
          · rw [if_neg hu] at hm
            exact ih (pos + 1) (is_latin_letter c) none hlen'
              (fun s' len' he => nomatch he) m hm

/-- Every hit emitted by the unknown-abbreviation pass slices the text at its
own offsets, has a non-empty in-bounds span, carries the fixed label, and its
span is not a known abbreviation. -/
lemma detect_valid (text : List Char) (existing : List Hit) :
    ∀ h ∈ detect_unknown_abbreviations text existing,
      h.span = pySlice text h.start h.end_ ∧ h.start < h.end_ ∧
      h.end_ ≤ text.length ∧ h.label = "미확인 영문 약어" ∧
      String.mk h.span ∉ _KNOWN_ABBREVS := by
  intro h hh
  unfold detect_unknown_abbreviations at hh
  obtain ⟨m, hm, hmk⟩ := List.mem_filterMap.mp hh
  split_ifs at hmk with h1 h2
  simp only [Option.some.injEq] at hmk
  have hspec := runs_go_spec text text 0 false none (by simp)
    (fun s len he => nomatch he) m hm
  subst hmk
  refine ⟨hspec.1, hspec.2.1, hspec.2.2, rfl, ?_⟩
  intro hk
  exact h2 (Or.inl hk)

/-! ## Decomposition of the analyze pipeline output -/

lemma mem_ra_of {r a s : List Hit} {x : Hit} (h : x ∈ r ++ a) :
    x ∈ r ++ a ++ s := by
  simp only [List.mem_append] at h ⊢
  tauto

lemma mem_s_of {r a s : List Hit} {x : Hit} (h : x ∈ s) :
    x ∈ r ++ a ++ s := by
  simp only [List.mem_append]
  tauto

/-- Every final hit comes from the collapse of the literal and alias hits,
from the semantic pass, or from the unknown-abbreviation detector run against
the merged known hits. -/
lemma analyze_hits_mem (text : List Char) (r a s : List Hit) :
    ∀ x ∈ analyze_hits text r a s,
      x ∈ collapse_parenthetical_duplicates text (r ++ a) ∨ x ∈ s ∨
      x ∈ detect_unknown_abbreviations text
        (merge_hits [collapse_parenthetical_duplicates text (r ++ a), s]) := by
  intro x hx
  have hx' : x ∈ merge_hits
      [merge_hits [collapse_parenthetical_duplicates text (r ++ a), s],
       detect_unknown_abbreviations text
         (merge_hits [collapse_parenthetical_duplicates text (r ++ a), s])] := hx
  have h1 := mem_merge_hits hx'
  simp only [List.flatten_cons, List.flatten_nil, List.append_nil] at h1
  rcases List.mem_append.mp h1 with h | h
  · have h2 := mem_merge_hits h
    simp only [List.flatten_cons, List.flatten_nil, List.append_nil] at h2
    rcases List.mem_append.mp h2 with h' | h'
    · exact Or.inl h'
    · exact Or.inr (Or.inl h')
  · exact Or.inr (Or.inr h)

/-! ## Non-overlap of the final hit list (claim C1) -/

/-- C1: for every input text and any outputs of the three regex-backed passes
whose spans are well-formed (`start ≤ end`), the final hit list of the
analyze pipeline is sorted ascending by `start` and is non-overlapping: for
any two hits `i < j` (in particular adjacent ones), `hit[i].end ≤
hit[j].start`. -/
theorem analyze_hits_nonoverlap (text : List Char)
    (hits_rule hits_alias hits_semantic : List Hit)
    (hwf : ∀ x ∈ hits_rule ++ hits_alias ++ hits_semantic, x.start ≤ x.end_) :
    List.Pairwise (fun a b : Hit => a.start ≤ b.start)
      (analyze_hits text hits_rule hits_alias hits_semantic) ∧
    List.Pairwise (fun a b : Hit => a.end_ ≤ b.start)
      (analyze_hits text hits_rule hits_alias hits_semantic) := by
  have hra : ∀ x ∈ hits_rule ++ hits_alias, x.start ≤ x.end_ :=
    fun x hx => hwf x (mem_ra_of hx)
  have hprim : ∀ x ∈ collapse_parenthetical_duplicates text
      (hits_rule ++ hits_alias), x.start ≤ x.end_ := by
    intro x hx
    rcases collapse_mem _ _ x hx with h | ⟨hi, hhi, hj, hhj, close, hc1, hc2, hc3, rfl⟩
    · exact hra x h
    · have h1 := hra hi hhi
      have h2 := hra hj hhj
      have h3 := skip_spaces_ge text hi.end_
      have h4 := skip_spaces_ge text (skip_spaces text hi.end_ + 1)
      simp only [combined_of]
      omega
  have hknown : ∀ x ∈ merge_hits
      [collapse_parenthetical_duplicates text (hits_rule ++ hits_alias),
       hits_semantic], x.start ≤ x.end_ := by
    intro x hx
    have h := mem_merge_hits hx
    simp only [List.flatten_cons, List.flatten_nil, List.append_nil] at h
    rcases List.mem_append.mp h with h' | h'
    · exact hprim x h'
    · exact hwf x (mem_s_of h')
  constructor
  · exact merge_hits_sorted _
  · refine merge_hits_nonoverlap _ ?_
    intro x hx
    simp only [List.flatten_cons, List.flatten_nil, List.append_nil] at hx
    rcases List.mem_append.mp hx with h | h
    · exact hknown x h
    · exact Nat.le_of_lt (detect_valid text _ x h).2.1

/-- C1 witness: on a text with two detected abbreviations and empty pass
outputs, the hypotheses hold and the theorem applies. -/
theorem analyze_hits_nonoverlap_witness :
    (∀ x ∈ ([] : List Hit) ++ [] ++ [], x.start ≤ x.end_) ∧
    (List.Pairwise (fun a b : Hit => a.start ≤ b.start)
      (analyze_hits "AB CD".data [] [] []) ∧
     List.Pairwise (fun a b : Hit => a.end_ ≤ b.start)
      (analyze_hits "AB CD".data [] [] [])) :=
  ⟨by decide, analyze_hits_nonoverlap "AB CD".data [] [] [] (by decide)⟩

/-! ## Span validity of the final hit list (claim C2) -/

/-- A hit whose span is exactly the slice of the original text at its own
codepoint offsets, with `0 ≤ start < end ≤ len(text)` (the lower bound is
intrinsic to `Nat`). -/
def hit_valid (text : List Char) (h : Hit) : Prop :=
  h.span = pySlice text h.start h.end_ ∧ h.start < h.end_ ∧ h.end_ ≤ text.length

instance (text : List Char) (h : Hit) : Decidable (hit_valid text h) := by
  unfold hit_valid
  infer_instance

/-- C2: for every input text and any outputs of the three regex-backed passes
that are span-valid (as every `re` match and every alias/semantic hit is),
every hit of the final analysis result is span-valid: slicing the original
text at the hit's codepoint offsets reproduces the span and
`0 ≤ start < end ≤ len(text)`. -/
theorem analyze_hits_span_valid (text : List Char)
    (hits_rule hits_alias hits_semantic : List Hit)
    (hv : ∀ x ∈ hits_rule ++ hits_alias ++ hits_semantic, hit_valid text x) :
    ∀ x ∈ analyze_hits text hits_rule hits_alias hits_semantic,
      hit_valid text x := by
  have hra : ∀ x ∈ hits_rule ++ hits_alias, hit_valid text x :=
    fun x hx => hv x (mem_ra_of hx)
  intro x hx
  rcases analyze_hits_mem text _ _ _ x hx with h | h | h
  · rcases collapse_mem _ _ x h with h' | ⟨hi, hhi, hj, hhj, close, hc1, hc2, hc3, rfl⟩
    · exact hra x h'
    · obtain ⟨-, hi2, -⟩ := hra hi hhi
      obtain ⟨-, hj2, -⟩ := hra hj hhj
      have h3 := skip_spaces_ge text hi.end_
      have h4 := skip_spaces_ge text (skip_spaces text hi.end_ + 1)
      exact ⟨rfl, by simp only [combined_of]; omega, by simp only [combined_of]; omega⟩
  · exact hv x (mem_s_of h)
  · obtain ⟨ha, hb, hc, -, -⟩ := detect_valid text _ x h
    exact ⟨ha, hb, hc⟩

/-- C2 witness: with empty pass outputs on a concrete text, the hypotheses
hold and the theorem yields validity of the one detected hit. -/
theorem analyze_hits_span_valid_witness :
    (∀ x ∈ ([] : List Hit) ++ [] ++ [], hit_valid "AB".data x) ∧
    (∀ x ∈ analyze_hits "AB".data [] [] [], hit_valid "AB".data x) :=
  ⟨by decide, analyze_hits_span_valid "AB".data [] [] [] (by decide)⟩

/-! ## NASA is never an unknown-abbreviation hit (claim C5) -/

/-- C5: for every input text and any pass outputs that never carry the
unknown-abbreviation label (no rule of the table does), no hit of the final
analysis result is an unknown-abbreviation hit with span NASA: the rule
`\bNASA\b` puts NASA into the known-abbreviation index, which suppresses the
candidate even though it is syntactically a 2-10 letter uppercase token. -/
theorem analyze_hits_no_unknown_nasa (text : List Char)
    (hits_rule hits_alias hits_semantic : List Hit)
    (hl : ∀ x ∈ hits_rule ++ hits_alias ++ hits_semantic,
      x.label ≠ "미확인 영문 약어") :
    ∀ x ∈ analyze_hits text hits_rule hits_alias hits_semantic,
      ¬ (x.label = "미확인 영문 약어" ∧ x.span = "NASA".data) := by
  intro x hx hcontra
  obtain ⟨hx1, hx2⟩ := hcontra
  rcases analyze_hits_mem text _ _ _ x hx with h | h | h
  · rcases collapse_mem _ _ x h with h' | ⟨hi, hhi, hj, -, close, -, -, -, rfl⟩
    · exact hl x (mem_ra_of h') hx1
    · exact hl hi (mem_ra_of hhi) hx1
  · exact hl x (mem_s_of h) hx1
  · have hk := (detect_valid text _ x h).2.2.2.2
    apply hk
    rw [hx2]
    decide

/-- C5 witness: on a text containing NASA and another uppercase token, with
empty pass outputs, the hypotheses hold and the theorem applies. -/
theorem analyze_hits_no_unknown_nasa_witness :
    (∀ x ∈ ([] : List Hit) ++ [] ++ [], x.label ≠ "미확인 영문 약어") ∧
    (∀ x ∈ analyze_hits "NASA QQQQ".data [] [] [],
      ¬ (x.label = "미확인 영문 약어" ∧ x.span = "NASA".data)) :=
  ⟨by decide, analyze_hits_no_unknown_nasa "NASA QQQQ".data [] [] [] (by decide)⟩
